import Mathlib

/-!
Shallow embedding of the `rag` CLI (`rag.go`) and of the `srag health`
command (`cmd/srag/health.go`) from the repository `fanyang89/rag`.

External effects (database, HTTP providers, file system) are modelled as
explicit outcome values that are handed to each command's action; a Go
`error` value is modelled by its message string, so a call that returns
`(T, error)` becomes an `Except String T` input of the embedded action.
-/

namespace RagCli

/-! ### Health command (`cmd/srag/health.go`) -/

/-- The four external dependencies probed by `srag health`, in the order the
code probes them. -/
inductive Dep where
  | storage
  | embedding
  | reranker
  | completion
  deriving DecidableEq, Repr

/-- One element of the embedding response's `Data` array. Only the length of
the vector is ever inspected by the code under `src/`, so the float
coordinates are modelled as integers. -/
structure EmbeddingData where
  embedding : List Int
  deriving DecidableEq, Repr

/-- The embedding provider's response (`openai` `CreateEmbeddingResponse`):
the code reads only its `Data` array. -/
structure EmbeddingResponse where
  data : List EmbeddingData
  deriving DecidableEq, Repr

/-- One element of the completion response's `Choices` array; the code reads
only its `Text`. -/
structure CompletionChoice where
  text : String
  deriving DecidableEq, Repr

/-- The completion provider's response: the code reads only its `Choices`. -/
structure CompletionResponse where
  choices : List CompletionChoice
  deriving DecidableEq, Repr

/-- The seven string flags read by `healthCmd` (empty string models an unset
flag, which is how `command.String` reports a missing value). -/
structure HealthFlags where
  dsn : String
  embeddingBaseURL : String
  embeddingModel : String
  rerankerBaseURL : String
  rerankerModel : String
  assistantBaseURL : String
  assistantModel : String

/-- Outcomes of the external calls issued by `healthCmd`, in source order:
`rag.OpenDB`, `db.DB()`, `rawDB.Ping()`, `Embeddings.New`,
`rerankerClient.Rerank` (its response value is discarded by the code, so only
the error matters) and `Completions.New`. -/
structure HealthEnv where
  openDB : Except String Unit
  dbDB : Except String Unit
  ping : Except String Unit
  embeddingsNew : Except String EmbeddingResponse
  rerank : Except String Unit
  completionsNew : Except String CompletionResponse

/-- Embedding of the `Action` of `healthCmd` (`cmd/srag/health.go` lines
27-111). The first component is the command's result: `.ok ()` when the
action reaches the final `return nil`, and `.error (dep, msg)` when it
returns the error `msg`, where `dep` records which dependency's section of
the code produced the return (each `return err` site in the source belongs
to exactly one dependency's block). The second component records, in order,
the dependency probes whose external call was actually issued (the storage
probe is `OpenDB`/`DB()`/`Ping`, then one call each for embedding, reranker
and completion). -/
def healthCmdAction (f : HealthFlags) (env : HealthEnv) :
    Except (Dep × String) Unit × List Dep :=
  if f.dsn = "" then (.error (.storage, "dsn is required"), [])
  else match env.openDB with
  | .error e => (.error (.storage, e), [.storage])
  | .ok _ =>
    match env.dbDB with
    | .error e => (.error (.storage, e), [.storage])
    | .ok _ =>
      match env.ping with
      | .error e => (.error (.storage, e), [.storage])
      | .ok _ =>
        if f.embeddingBaseURL = "" then
          (.error (.embedding, "embedding-base-url is required"), [.storage])
        else if f.embeddingModel = "" then
          (.error (.embedding, "embedding-model is required"), [.storage])
        else match env.embeddingsNew with
        | .error e => (.error (.embedding, e), [.storage, .embedding])
        | .ok resp =>
          match resp.data with
          | [] => (.error (.embedding, "empty response"), [.storage, .embedding])
          | d0 :: _ =>
            if d0.embedding.isEmpty then
              (.error (.embedding, "empty response"), [.storage, .embedding])
            else if f.rerankerBaseURL = "" then
              (.error (.reranker, "reranker-base-url is required"), [.storage, .embedding])
            else if f.rerankerModel = "" then
              (.error (.reranker, "reranker-model is required"), [.storage, .embedding])
            else match env.rerank with
            | .error e => (.error (.reranker, e), [.storage, .embedding, .reranker])
            | .ok _ =>
              if f.assistantBaseURL = "" then
                (.error (.completion, "assistant-base-url is required"),
                  [.storage, .embedding, .reranker])
              else if f.assistantModel = "" then
                (.error (.completion, "assistant-model is required"),
                  [.storage, .embedding, .reranker])
              else match env.completionsNew with
              | .error e =>
                (.error (.completion, e), [.storage, .embedding, .reranker, .completion])
              | .ok resp2 =>
                match resp2.choices with
                | [] =>
                  (.error (.completion, "empty response"),
                    [.storage, .embedding, .reranker, .completion])
                | c0 :: _ =>
                  if c0.text = "" then
                    (.error (.completion, "empty response"),
                      [.storage, .embedding, .reranker, .completion])
                  else (.ok (), [.storage, .embedding, .reranker, .completion])

/-- A Go call outcome is a success. -/
def exceptOk {α : Type} : Except String α → Bool
  | .ok _ => true
  | .error _ => false

/-- The storage check (open, obtain raw handle, ping) passes. -/
def storagePasses (env : HealthEnv) : Bool :=
  exceptOk env.openDB && exceptOk env.dbDB && exceptOk env.ping

/-- The embedding check passes: the call succeeds and the response's first
result carries a non-empty vector. -/
def embeddingPasses (env : HealthEnv) : Bool :=
  match env.embeddingsNew with
  | .error _ => false
  | .ok resp =>
    match resp.data with
    | [] => false
    | d0 :: _ => !d0.embedding.isEmpty

/-- The reranker check passes: the rerank call returns no error. -/
def rerankerPasses (env : HealthEnv) : Bool :=
  exceptOk env.rerank

/-- The completion check passes: the call succeeds and the first choice has
non-empty text. -/
def completionPasses (env : HealthEnv) : Bool :=
  match env.completionsNew with
  | .error _ => false
  | .ok resp =>
    match resp.choices with
    | [] => false
    | c0 :: _ => !(c0.text == "")

/-- C2: when the storage, embedding and reranker checks all pass but the
completion call fails with error `e`, `healthCmd` returns exactly that
error, tagged as coming from the completion dependency. -/
theorem health_completion_failure_tagged
    (f : HealthFlags)
    (h1 : f.dsn ≠ "") (h2 : f.embeddingBaseURL ≠ "") (h3 : f.embeddingModel ≠ "")
    (h4 : f.rerankerBaseURL ≠ "") (h5 : f.rerankerModel ≠ "")
    (h6 : f.assistantBaseURL ≠ "") (h7 : f.assistantModel ≠ "")
    (d0 : EmbeddingData) (rest : List EmbeddingData) (hvec : d0.embedding ≠ [])
    (e : String) :
    (healthCmdAction f
        ⟨.ok (), .ok (), .ok (), .ok ⟨d0 :: rest⟩, .ok (), .error e⟩).1 =
      .error (.completion, e) := by
  simp [healthCmdAction, h1, h2, h3, h4, h5, h6, h7, List.isEmpty_iff, hvec]

/-- Witness for C2 at a concrete input. -/
theorem health_completion_failure_tagged_witness :
    (healthCmdAction ⟨"pg", "eURL", "eModel", "rURL", "rModel", "aURL", "aModel"⟩
        ⟨.ok (), .ok (), .ok (), .ok ⟨[⟨[1, 2]⟩]⟩, .ok (), .error "connection refused"⟩).1 =
      .error (.completion, "connection refused") :=
  health_completion_failure_tagged _
    (by decide) (by decide) (by decide) (by decide) (by decide) (by decide) (by decide)
    ⟨[1, 2]⟩ [] (by decide) "connection refused"

/-- C3: with all required flags set, the health command probes its four
dependencies in the fixed order storage, embedding, reranker, completion;
it succeeds exactly when all four checks pass, and the list of probes it
issues stops right after the first failing dependency, so no later
dependency is probed after a failure. -/
theorem health_fail_fast_order
    (f : HealthFlags)
    (h1 : f.dsn ≠ "") (h2 : f.embeddingBaseURL ≠ "") (h3 : f.embeddingModel ≠ "")
    (h4 : f.rerankerBaseURL ≠ "") (h5 : f.rerankerModel ≠ "")
    (h6 : f.assistantBaseURL ≠ "") (h7 : f.assistantModel ≠ "")
    (o d p : Except String Unit) (em : Except String EmbeddingResponse)
    (rr : Except String Unit) (cm : Except String CompletionResponse) :
    ((healthCmdAction f ⟨o, d, p, em, rr, cm⟩).1 = .ok () ↔
        (storagePasses ⟨o, d, p, em, rr, cm⟩ = true ∧
          embeddingPasses ⟨o, d, p, em, rr, cm⟩ = true ∧
          rerankerPasses ⟨o, d, p, em, rr, cm⟩ = true ∧
          completionPasses ⟨o, d, p, em, rr, cm⟩ = true)) ∧
      (storagePasses ⟨o, d, p, em, rr, cm⟩ = false →
        (healthCmdAction f ⟨o, d, p, em, rr, cm⟩).2 = [.storage]) ∧
      (storagePasses ⟨o, d, p, em, rr, cm⟩ = true →
        embeddingPasses ⟨o, d, p, em, rr, cm⟩ = false →
        (healthCmdAction f ⟨o, d, p, em, rr, cm⟩).2 = [.storage, .embedding]) ∧
      (storagePasses ⟨o, d, p, em, rr, cm⟩ = true →
        embeddingPasses ⟨o, d, p, em, rr, cm⟩ = true →
        rerankerPasses ⟨o, d, p, em, rr, cm⟩ = false →
        (healthCmdAction f ⟨o, d, p, em, rr, cm⟩).2 = [.storage, .embedding, .reranker]) ∧
      (storagePasses ⟨o, d, p, em, rr, cm⟩ = true →
        embeddingPasses ⟨o, d, p, em, rr, cm⟩ = true →
        rerankerPasses ⟨o, d, p, em, rr, cm⟩ = true →
        (healthCmdAction f ⟨o, d, p, em, rr, cm⟩).2 =
          [.storage, .embedding, .reranker, .completion]) := by
  cases o with
  | error e =>
    simp [healthCmdAction, storagePasses, exceptOk, h1]
  | ok u =>
    cases d with
    | error e =>
      simp [healthCmdAction, storagePasses, exceptOk, h1]
    | ok u' =>
      cases p with
      | error e =>
        simp [healthCmdAction, storagePasses, exceptOk, h1]
      | ok u'' =>
        cases em with
        | error e =>
          simp [healthCmdAction, storagePasses, embeddingPasses, exceptOk, h1, h2, h3]
        | ok resp =>
          obtain ⟨data⟩ := resp
          cases data with
          | nil =>
            simp [healthCmdAction, storagePasses, embeddingPasses, exceptOk, h1, h2, h3]
          | cons d0 tl =>
            cases hvec : d0.embedding with
            | nil =>
              simp [healthCmdAction, storagePasses, embeddingPasses, exceptOk,
                h1, h2, h3, hvec]
            | cons v vs =>
              cases rr with
              | error e =>
                simp [healthCmdAction, storagePasses, embeddingPasses, rerankerPasses,
                  exceptOk, h1, h2, h3, h4, h5, hvec]
              | ok u3 =>
                cases cm with
                | error e =>
                  simp [healthCmdAction, storagePasses, embeddingPasses, rerankerPasses,
                    completionPasses, exceptOk, h1, h2, h3, h4, h5, h6, h7, hvec]
                | ok resp2 =>
                  obtain ⟨choices⟩ := resp2
                  cases choices with
                  | nil =>
                    simp [healthCmdAction, storagePasses, embeddingPasses, rerankerPasses,
                      completionPasses, exceptOk, h1, h2, h3, h4, h5, h6, h7, hvec]
                  | cons c0 cs =>
                    by_cases htext : c0.text = "" <;>
                      simp [healthCmdAction, storagePasses, embeddingPasses, rerankerPasses,
                        completionPasses, exceptOk, h1, h2, h3, h4, h5, h6, h7, hvec, htext]

/-- Witness for C3 at a concrete input where all four checks pass. -/
theorem health_fail_fast_order_witness :
    (healthCmdAction ⟨"pg", "eURL", "eModel", "rURL", "rModel", "aURL", "aModel"⟩
        ⟨.ok (), .ok (), .ok (), .ok ⟨[⟨[1]⟩]⟩, .ok (), .ok ⟨[⟨"hi"⟩]⟩⟩).1 = .ok () ∧
      (healthCmdAction ⟨"pg", "eURL", "eModel", "rURL", "rModel", "aURL", "aModel"⟩
        ⟨.ok (), .ok (), .ok (), .ok ⟨[⟨[1]⟩]⟩, .ok (), .ok ⟨[⟨"hi"⟩]⟩⟩).2 =
        [.storage, .embedding, .reranker, .completion] := by
  have h := health_fail_fast_order ⟨"pg", "eURL", "eModel", "rURL", "rModel", "aURL", "aModel"⟩
    (by decide) (by decide) (by decide) (by decide) (by decide) (by decide) (by decide)
    (.ok ()) (.ok ()) (.ok ()) (.ok ⟨[⟨[1]⟩]⟩) (.ok ()) (.ok ⟨[⟨"hi"⟩]⟩)
  exact ⟨h.1.mpr ⟨by decide, by decide, by decide, by decide⟩,
    h.2.2.2.2 (by decide) (by decide) (by decide)⟩

/-- C4 counterexample: an embedding response whose first vector is empty but
whose second vector is non-empty contains at least one non-empty vector, yet
the health check still fails with the empty-response error, so such a
response does not pass. -/
theorem embedding_empty_check_counterexample :
    (([⟨[]⟩, ⟨[1]⟩] : List EmbeddingData).any (fun d => !d.embedding.isEmpty)) = true ∧
      (healthCmdAction ⟨"pg", "eURL", "eModel", "rURL", "rModel", "aURL", "aModel"⟩
          ⟨.ok (), .ok (), .ok (), .ok ⟨[⟨[]⟩, ⟨[1]⟩]⟩, .ok (), .ok ⟨[⟨"hi"⟩]⟩⟩).1 =
        .error (.embedding, "empty response") := by
  exact ⟨by decide, rfl⟩

/-- C4 (amended): with the required flags set and the storage check passing,
a successful embedding-provider call makes the health check fail with the
empty-response error exactly when the response has no result or its first
result's vector is empty; a response whose first vector is non-empty passes
this check. -/
theorem embedding_empty_check_characterization
    (f : HealthFlags)
    (h1 : f.dsn ≠ "") (h2 : f.embeddingBaseURL ≠ "") (h3 : f.embeddingModel ≠ "")
    (h4 : f.rerankerBaseURL ≠ "") (h5 : f.rerankerModel ≠ "")
    (h6 : f.assistantBaseURL ≠ "") (h7 : f.assistantModel ≠ "")
    (resp : EmbeddingResponse) (rr : Except String Unit)
    (cm : Except String CompletionResponse) :
    (healthCmdAction f ⟨.ok (), .ok (), .ok (), .ok resp, rr, cm⟩).1 =
        .error (.embedding, "empty response") ↔
      (resp.data = [] ∨ ∃ d0 tl, resp.data = d0 :: tl ∧ d0.embedding = []) := by
  obtain ⟨data⟩ := resp
  cases data with
  | nil => simp [healthCmdAction, h1, h2, h3]
  | cons d0 tl =>
    cases hvec : d0.embedding with
    | nil => simp [healthCmdAction, h1, h2, h3, hvec]
    | cons v vs =>
      cases rr with
      | error e =>
        simp [healthCmdAction, h1, h2, h3, h4, h5, hvec]
      | ok u =>
        cases cm with
        | error e =>
          simp [healthCmdAction, h1, h2, h3, h4, h5, h6, h7, hvec]
        | ok resp2 =>
          obtain ⟨choices⟩ := resp2
          cases choices with
          | nil => simp [healthCmdAction, h1, h2, h3, h4, h5, h6, h7, hvec]
          | cons c0 cs =>
            by_cases htext : c0.text = "" <;>
              simp [healthCmdAction, h1, h2, h3, h4, h5, h6, h7, hvec, htext]

/-- Witness for the amended C4 at a concrete input. -/
theorem embedding_empty_check_characterization_witness :
    (healthCmdAction ⟨"pg", "eURL", "eModel", "rURL", "rModel", "aURL", "aModel"⟩
        ⟨.ok (), .ok (), .ok (), .ok ⟨[]⟩, .ok (), .ok ⟨[]⟩⟩).1 =
      .error (.embedding, "empty response") :=
  (embedding_empty_check_characterization
      ⟨"pg", "eURL", "eModel", "rURL", "rModel", "aURL", "aModel"⟩
      (by decide) (by decide) (by decide) (by decide) (by decide) (by decide) (by decide)
      ⟨[]⟩ (.ok ()) (.ok ⟨[]⟩)).mpr (Or.inl rfl)

/-! ### Serve command (`rag.go` lines 155-205) -/

/-- A Go error as seen by `serveCmd` after `s.Start`: its message together
with whether `errors.Is(err, http.ErrServerClosed)` holds for it. -/
structure StartError where
  msg : String
  isServerClosed : Bool
  deriving DecidableEq, Repr

/-- Embedding of the tail of `serveCmd`'s action (`rag.go` lines 199-203):
given the error value returned by `s.Start`, the command returns `nil` when
that value is `nil` or matches `http.ErrServerClosed`, and propagates it
otherwise. -/
def serveStartResult : Option StartError → Option StartError
  | none => none
  | some e => if e.isServerClosed then none else some e

/-- C6: the serve command treats a clean shutdown (`nil`) and an
already-closed listener (`http.ErrServerClosed`) as success and propagates
every other error from `Start` unchanged. -/
theorem serve_start_error_mapping :
    serveStartResult none = none ∧
      (∀ e : StartError,
        serveStartResult (some e) = if e.isServerClosed then none else some e) ∧
      (∀ o : Option StartError,
        serveStartResult o = none ↔
          (o = none ∨ ∃ e, o = some e ∧ e.isServerClosed = true)) := by
  refine ⟨rfl, fun e => rfl, fun o => ?_⟩
  cases o with
  | none => simp [serveStartResult]
  | some e =>
    cases he : e.isServerClosed <;> simp [serveStartResult, he]

/-- Result of the graceful drain for one in-flight request. -/
inductive DrainResult where
  | completed
  | forciblyClosed
  deriving DecidableEq, Repr

/-- Grace period of the shutdown context created by `serveCmd` when the
external signal arrives (`rag.go` line 194:
`context.WithTimeout(context.Background(), 10*time.Second)`), in seconds. -/
def shutdownGracePeriod : Nat := 10

/-- Deadline of the shutdown context: the signal's arrival time plus the
grace period. -/
def shutdownDeadline (signalTime : Nat) : Nat := signalTime + shutdownGracePeriod

/-- Modelled from the spec: the graceful drain performed by
`rag.Server.Shutdown` (the `rag` package is not under `src/`). An in-flight
request completes within the drain window iff it finishes no later than the
shutdown context's deadline; afterwards its connection is forcibly
closed. -/
def drainOutcome (signalTime finishTime : Nat) : DrainResult :=
  if finishTime ≤ shutdownDeadline signalTime then .completed else .forciblyClosed

/-- C7: the drain deadline is exactly 10 time units after the shutdown
signal; an in-flight request completes gracefully iff it finishes within
that window, and is forcibly closed iff it finishes after it. -/
theorem shutdown_drain_deadline (signalTime finishTime : Nat) :
    shutdownDeadline signalTime = signalTime + 10 ∧
      shutdownDeadline signalTime - signalTime = 10 ∧
      (drainOutcome signalTime finishTime = .completed ↔
        finishTime ≤ signalTime + 10) ∧
      (drainOutcome signalTime finishTime = .forciblyClosed ↔
        signalTime + 10 < finishTime) := by
  refine ⟨rfl, by simp [shutdownDeadline, shutdownGracePeriod], ?_, ?_⟩ <;>
    · by_cases h : finishTime ≤ signalTime + 10 <;>
        simp [drainOutcome, shutdownDeadline, shutdownGracePeriod, h] <;>
        omega

/-! ### Compute command (`rag.go` lines 274-311) -/

/-- Default value of the `--force` flag (`rag.go` lines 290-293). -/
def computeForceDefault : Bool := false

/-- Embedding of `computeCmd`'s action (`rag.go` lines 295-310): after the
configuration reads, it opens the database and, on success, calls
`r.ComputeEmbeddings(ctx, !force)`. The returned boolean is the
`skip_existing` argument passed to that call. -/
def computeCmdAction (openDB : Except String Unit) (force : Bool) :
    Except String Bool :=
  match openDB with
  | .error e => .error e
  | .ok _ => .ok (!force)

/-- C8: the compute command hands `ComputeEmbeddings` a `skip_existing`
argument equal to the negation of `--force`: the default `force = false`
yields `skip_existing = true`, and `--force` yields `skip_existing =
false`; a database-open failure is propagated instead. -/
theorem compute_skip_existing (force : Bool) (e : String) :
    computeCmdAction (.ok ()) force = .ok (!force) ∧
      computeCmdAction (.ok ()) computeForceDefault = .ok true ∧
      computeCmdAction (.ok ()) true = .ok false ∧
      computeCmdAction (.error e) force = .error e := by
  exact ⟨rfl, rfl, rfl, rfl⟩

/-! ### Get command (`rag.go` lines 375-402) -/

/-- The `rag.DocumentChunk` row as used by `getChunkCmd`: only its `Text`
field is read by the code under `src/`. -/
structure DocumentChunk where
  text : String
  deriving DecidableEq, Repr

/-- Observable outcome of `getChunkCmd`'s action. -/
inductive GetOutcome where
  /-- The command printed the chunk's text and returned `nil`. -/
  | printed (text : String)
  /-- The command returned an error before reaching the lookup. -/
  | cliError (msg : String)
  /-- The command dereferenced a nil chunk pointer (`c.Text` with `c = nil`),
  a runtime panic. -/
  | nilDereference
  deriving DecidableEq, Repr

/-- Embedding of `getChunkCmd`'s action (`rag.go` lines 386-401). The
`lookup` argument is the `(chunk pointer, error)` pair returned by
`r.GetDocumentChunk(id)`; the code ignores the error component, prints
`c.Text` unconditionally and returns `nil`. -/
def getChunkAction (id : String) (openDB : Except String Unit)
    (lookup : Option DocumentChunk × Option String) : GetOutcome :=
  if id = "" then .cliError "id is required"
  else match openDB with
  | .error e => .cliError e
  | .ok _ =>
    match lookup.1 with
    | some c => .printed c.text
    | none => .nilDereference

/-- C9: the get command ignores the error component returned by
`GetDocumentChunk`: with a non-empty id and an open database, a lookup
returning a chunk prints its text and returns `nil` whatever the error
component is, so a lookup error is never reflected in the result; and a
lookup that returns a nil chunk reaches the nil dereference. -/
theorem get_ignores_lookup_error (id : String) (hid : id ≠ "")
    (c : DocumentChunk) (err : Option String) :
    getChunkAction id (.ok ()) (some c, err) = .printed c.text ∧
      getChunkAction id (.ok ()) (none, err) = .nilDereference := by
  constructor <;> simp [getChunkAction, hid]

/-- Witness for C9 at a concrete input: the lookup failed with an error, yet
the command prints the text of the chunk it got, and a nil chunk causes the
nil dereference. -/
theorem get_ignores_lookup_error_witness :
    getChunkAction "chunk-1" (.ok ()) (some ⟨"hello"⟩, some "record not found") =
        .printed "hello" ∧
      getChunkAction "chunk-1" (.ok ()) (none, some "record not found") =
        .nilDereference :=
  get_ignores_lookup_error "chunk-1" (by decide) ⟨"hello"⟩ (some "record not found")

/-! ### Process entry point (`rag.go` lines 404-417) -/

/-- Observable outcome of the whole process. -/
structure MainOutcome where
  /-- The message logged via `log.Error()`, if any. -/
  logged : Option String
  /-- The process exit status. -/
  exitCode : Nat
  deriving DecidableEq, Repr

/-- Embedding of `main` (`rag.go` lines 404-417): `err := cmd.Run(ctx,
os.Args)` produces the command's error, modelled as `runResult`. When it is
non-nil, `main` logs it with `log.Error().Err(err).Msg("Unexpected error")`
and then falls off the end of `main`, so the Go runtime exits with status 0
in both cases. (The actions return plain errors, which `urfave/cli`'s `Run`
hands back to the caller rather than exiting, and `zerolog`'s `Error` level
does not terminate the process.) -/
def mainProcess (runResult : Option String) : MainOutcome :=
  match runResult with
  | some e => { logged := some e, exitCode := 0 }
  | none => { logged := none, exitCode := 0 }

/-- C1: evaluating `main` at a failing command invocation (for example
`rag scan` without a path argument, whose action returns the error
`path is required`): the error is logged, but the process still exits with
status 0, contradicting the claimed non-zero exit code on failure. -/
theorem main_logs_error_but_exits_zero :
    mainProcess (some "path is required") =
        { logged := some "path is required", exitCode := 0 } ∧
      mainProcess none = { logged := none, exitCode := 0 } :=
  ⟨rfl, rfl⟩

/-! ### Scan command (`rag.go` lines 207-272) -/

/-- A parsed JSON value, the content of a file read by `scanCmd`. -/
inductive JsonVal where
  | str (s : String)
  | num (n : Int)
  | boolean (b : Bool)
  | arr (xs : List JsonVal)
  | obj (fields : List (String × JsonVal))

/-- Modelled from the spec: one chunk record of the `rag.Document`
descriptor (the `rag` package is not under `src/`); per the spec the record
carries `chunk_index` and `text`. -/
structure ChunkRecord where
  chunkIndex : Int
  text : String
  deriving DecidableEq, Repr

/-- Modelled from the spec: the `rag.Document` descriptor — a raw-document
reference plus an ordered list of chunk records. -/
structure Document where
  rawDocument : String
  chunks : List ChunkRecord
  deriving DecidableEq, Repr

/-- JSON keys of the `Document` struct. -/
def documentFields : List String := ["raw_document", "chunks"]

/-- JSON keys of the chunk-record struct. -/
def chunkFields : List String := ["chunk_index", "text"]

/-- Decoding of an optional string-typed JSON field, with Go's zero value
for a missing field. -/
def decodeStringField : Option JsonVal → Except String String
  | none => .ok ""
  | some (.str s) => .ok s
  | some _ => .error "cannot unmarshal field"

/-- Decoding of an optional integer-typed JSON field, with Go's zero value
for a missing field. -/
def decodeIntField : Option JsonVal → Except String Int
  | none => .ok 0
  | some (.num n) => .ok n
  | some _ => .error "cannot unmarshal field"

/-- Modelled from the spec: decoding of one chunk record, with the
unknown-field rejection that `decoder.DisallowUnknownFields()` in `scanCmd`
(`rag.go` line 262) applies to every struct reached by the decode. -/
def decodeChunkRecord (j : JsonVal) : Except String ChunkRecord :=
  match j with
  | .obj fs =>
    if fs.any (fun f => !chunkFields.contains f.1) then .error "unknown field"
    else do
      let idx ← decodeIntField (fs.lookup "chunk_index")
      let t ← decodeStringField (fs.lookup "text")
      .ok ⟨idx, t⟩
  | _ => .error "cannot unmarshal chunk"

/-- Modelled from the spec: decoding of the `rag.Document` descriptor with
unknown-field rejection (`decoder.DisallowUnknownFields()`, `rag.go` line
262): a JSON object carrying a key outside the `Document` schema fails to
decode, and so does a value of the wrong shape. -/
def decodeDocument (j : JsonVal) : Except String Document :=
  match j with
  | .obj fs =>
    if fs.any (fun f => !documentFields.contains f.1) then .error "unknown field"
    else do
      let raw ← decodeStringField (fs.lookup "raw_document")
      let chunks ←
        match fs.lookup "chunks" with
        | none => .ok []
        | some (.arr xs) => xs.mapM decodeChunkRecord
        | some _ => .error "cannot unmarshal field"
      .ok ⟨raw, chunks⟩
  | _ => .error "cannot unmarshal document"

/-- One directory entry visited by the `filepath.WalkDir` callback of
`scanCmd`, together with the outcomes of the external calls the callback
would make on it: the `err` argument the walk passes in, the result of
`os.ReadFile` (its content given as a parsed JSON value) and the error
`r.UpsertDocumentChunks` would return if called. -/
structure WalkEntry where
  name : String
  isDir : Bool
  walkErr : Option String
  readResult : Except String JsonVal
  upsertErr : Option String

/-- Embedding of the `filepath.WalkDir` callback of `scanCmd` (`rag.go`
lines 245-270). The first component is the error the callback returns; the
second records the document passed to `UpsertDocumentChunks`, or `none`
when that call is never reached. -/
def scanCallback (matchGlob : String → Bool) (e : WalkEntry) :
    Option String × Option Document :=
  match e.walkErr with
  | some err => (some err, none)
  | none =>
    if e.isDir then (none, none)
    else if !matchGlob e.name then (none, none)
    else match e.readResult with
    | .error err => (some err, none)
    | .ok buf =>
      match decodeDocument buf with
      | .error err => (some err, none)
      | .ok doc => (e.upsertErr, some doc)

/-- Embedding of the documented contract of `filepath.WalkDir` as used by
`scanCmd`: entries are visited in order, and the walk stops and returns the
callback's error the first time the callback returns a non-nil error (the
callback never returns `SkipDir`/`SkipAll`). The second component collects
the documents upserted during the walk. -/
def scanWalk (matchGlob : String → Bool) : List WalkEntry → Option String × List Document
  | [] => (none, [])
  | e :: es =>
    match scanCallback matchGlob e with
    | (some err, d) => (some err, d.toList)
    | (none, d) =>
      let r := scanWalk matchGlob es
      (r.1, d.toList ++ r.2)

/-- C5: a JSON object carrying a key outside the `Document` schema fails to
decode, and any decoding failure makes the scan callback return the error
without ever calling `UpsertDocumentChunks`, so no partial upsert of that
file occurs. -/
theorem scan_unknown_field_aborts :
    (∀ (fs : List (String × JsonVal)) (k : String) (v : JsonVal),
        (k, v) ∈ fs → !documentFields.contains k →
        ∃ msg, decodeDocument (.obj fs) = .error msg) ∧
      (∀ (matchGlob : String → Bool) (e : WalkEntry) (j : JsonVal) (msg : String),
        e.walkErr = none → e.isDir = false → matchGlob e.name = true →
        e.readResult = .ok j → decodeDocument j = .error msg →
        scanCallback matchGlob e = (some msg, none)) := by
  constructor
  · intro fs k v hmem hk
    refine ⟨"unknown field", ?_⟩
    have hany : fs.any (fun f => !documentFields.contains f.1) = true :=
      List.any_eq_true.mpr ⟨(k, v), hmem, hk⟩
    simp only [decodeDocument]
    rw [if_pos hany]
  · intro matchGlob e j msg hw hd hm hr hdec
    simp [scanCallback, hw, hd, hm, hr, hdec]

/-- Witness for C5 at a concrete input: a document file with the unknown
key `extra` fails to decode and is not upserted by the callback. -/
theorem scan_unknown_field_aborts_witness :
    (∃ msg,
        decodeDocument
            (.obj [("raw_document", .str "a.md"), ("extra", .num 1)]) =
          .error msg) ∧
      scanCallback (fun _ => true)
          ⟨"a.chunks.json", false, none,
            .ok (.obj [("raw_document", .str "a.md"), ("extra", .num 1)]), none⟩ =
        (some "unknown field", none) :=
  ⟨scan_unknown_field_aborts.1
      [("raw_document", .str "a.md"), ("extra", .num 1)] "extra" (.num 1)
      (by simp) (by decide),
    scan_unknown_field_aborts.2 (fun _ => true)
      ⟨"a.chunks.json", false, none,
        .ok (.obj [("raw_document", .str "a.md"), ("extra", .num 1)]), none⟩
      (.obj [("raw_document", .str "a.md"), ("extra", .num 1)]) "unknown field"
      rfl rfl rfl rfl rfl⟩

/-- The documents upserted while processing a list of entries none of which
fails. -/
def upsertsOf (matchGlob : String → Bool) (l : List WalkEntry) : List Document :=
  l.filterMap (fun x => (scanCallback matchGlob x).2)

/-- Unfolding of `scanWalk` at an entry whose callback succeeds. -/
theorem scanWalk_cons_ok (matchGlob : String → Bool) (x : WalkEntry)
    (es : List WalkEntry) (hx : (scanCallback matchGlob x).1 = none) :
    scanWalk matchGlob (x :: es) =
      ((scanWalk matchGlob es).1,
        ((scanCallback matchGlob x).2).toList ++ (scanWalk matchGlob es).2) := by
  have hpx : scanCallback matchGlob x = (none, (scanCallback matchGlob x).2) := by
    rw [← hx]
  simp only [scanWalk]
  rw [hpx]

/-- Unfolding of `scanWalk` at an entry whose callback fails. -/
theorem scanWalk_cons_err (matchGlob : String → Bool) (x : WalkEntry)
    (es : List WalkEntry) (msg : String)
    (hx : (scanCallback matchGlob x).1 = some msg) :
    scanWalk matchGlob (x :: es) = (some msg, ((scanCallback matchGlob x).2).toList) := by
  have hpx : scanCallback matchGlob x = (some msg, (scanCallback matchGlob x).2) := by
    rw [← hx]
  simp only [scanWalk]
  rw [hpx]

/-- C10: if every entry before `e` is processed without error and processing
`e` fails, the whole walk stops at `e`: it returns `e`'s error, and the
documents upserted are exactly those of the prefix plus whatever upsert `e`
itself reached — nothing from any later entry is ingested. -/
theorem scan_walk_aborts_on_first_error
    (matchGlob : String → Bool) (pre post : List WalkEntry) (e : WalkEntry)
    (msg : String)
    (hpre : ∀ x ∈ pre, (scanCallback matchGlob x).1 = none)
    (he : (scanCallback matchGlob e).1 = some msg) :
    scanWalk matchGlob (pre ++ e :: post) =
      (some msg, upsertsOf matchGlob pre ++ ((scanCallback matchGlob e).2).toList) := by
  induction pre with
  | nil =>
    rw [List.nil_append, scanWalk_cons_err matchGlob e post msg he]
    simp [upsertsOf]
  | cons x xs ih =>
    have hx : (scanCallback matchGlob x).1 = none := hpre x (by simp)
    have hxs : ∀ y ∈ xs, (scanCallback matchGlob y).1 = none := fun y hy =>
      hpre y (by simp [hy])
    rw [List.cons_append, scanWalk_cons_ok matchGlob x (xs ++ e :: post) hx, ih hxs]
    cases hsnd : (scanCallback matchGlob x).2 <;>
      simp [upsertsOf, List.filterMap_cons, hsnd]

/-- Witness for C10 at a concrete input: a directory entry is skipped, the
second entry fails with a read error, and the walk returns that error with
no document upserted — the valid third entry is never ingested. -/
theorem scan_walk_aborts_on_first_error_witness :
    scanWalk (fun n => n = "b.chunks.json" || n = "c.chunks.json")
        [⟨"sub", true, none, .error "is a directory", none⟩,
          ⟨"b.chunks.json", false, none, .error "permission denied", none⟩,
          ⟨"c.chunks.json", false, none, .ok (.obj []), none⟩] =
      (some "permission denied", []) := by
  have h := scan_walk_aborts_on_first_error
    (fun n => n = "b.chunks.json" || n = "c.chunks.json")
    [⟨"sub", true, none, .error "is a directory", none⟩]
    [⟨"c.chunks.json", false, none, .ok (.obj []), none⟩]
    ⟨"b.chunks.json", false, none, .error "permission denied", none⟩
    "permission denied"
    (by intro x hx; simp at hx; subst hx; rfl)
    (by decide)
  simpa [upsertsOf, scanCallback] using h

end RagCli
